import Mathlib

/-!
Shallow embedding of the "recent form" lookback engine of the
sports-model repository: `app/services/last5_form.py` (the generic
service scanner and `get_form_summary`) and `app/routers/form_routes.py`
(the router scanner and `_summarize_team_form`).

Modelling conventions:
* JSON fragments relevant to the scan are structures; an absent field is
  `none`.  Numeric JSON values (scores, linescore values) arrive from the
  upstream feed as decimal strings and are modelled as `Option String`.
* The per-day upstream fetch is an oracle `Int → Except FetchErr (List
  Event)` keyed by an integer day number (`today - delta`); a Python
  exception raised by the fetch is the `.error` case.
* Scanners additionally return the list of days actually fetched, so that
  "makes zero upstream calls" and "days scanned" are stateable.
* Python `float` averages are modelled in `ℚ` (the claims under scrutiny
  concern null-vs-value and inclusion-vs-exclusion, not rounding).
-/

namespace SportsModel

/-- Transport-level failure of one day's upstream fetch: `statusError`
models `httpx.HTTPStatusError` (raised by `raise_for_status` on a non-2xx
response); `transportError` models every other exception a fetch can
raise (timeout, connection error, malformed JSON body). -/
inductive FetchErr where
  | statusError
  | transportError
deriving DecidableEq

deriving instance DecidableEq for Except

/-- Model of `competitions[0].status.type` of a raw ESPN event: the
completion state string and the boolean `completed` flag. -/
structure StatusType where
  state : Option String
  completed : Bool
deriving DecidableEq

/-- One competitor entry of a raw ESPN event, with its nested `team`
object flattened (`teamId`, `displayName`, `name`, `abbreviation` are
the `team` object's fields; a missing `team` object is all-`none`). -/
structure Competitor where
  teamId : Option String
  displayName : Option String
  name : Option String
  abbreviation : Option String
  homeAway : Option String
  score : Option String
  linescores : List (Option String)
deriving DecidableEq

/-- One entry of an event's `competitions` array. -/
structure Competition where
  statusType : StatusType
  competitors : List Competitor
deriving DecidableEq

/-- One raw ESPN scoreboard event. -/
structure Event where
  id : Option String
  date : Option String
  competitions : List Competition
deriving DecidableEq

/-- Python `str(x)` applied to an optional string id: `str(None)` is the
string `"None"`. -/
def pyStr : Option String → String
  | none => "None"
  | some s => s

/-- Python `a or b` on optional strings: `None` and `""` are falsy. -/
def pyOrS (a b : Option String) : Option String :=
  match a with
  | none => b
  | some s => if s = "" then b else some s

/-- Python `s.lower()` for ASCII strings, modelled on the character
list. -/
def pyLower (s : String) : String :=
  ⟨s.data.map Char.toLower⟩

/-- Decimal digit value of a character, `none` for a non-digit. -/
def digitVal (c : Char) : Option Nat :=
  if 48 ≤ c.toNat ∧ c.toNat ≤ 57 then some (c.toNat - 48) else none

/-- Accumulate decimal digits; `none` as soon as a non-digit appears. -/
def pyNatAux : List Char → Nat → Option Nat
  | [], acc => some acc
  | c :: cs, acc =>
    match digitVal c with
    | none => none
    | some d => pyNatAux cs (acc * 10 + d)

/-- Parse a non-empty all-digit character list as a natural number. -/
def pyNatOfChars : List Char → Option Nat
  | [] => none
  | cs => pyNatAux cs 0

/-- Model of Python `int(s)` on the plain decimal strings the upstream
feed produces: an optional sign followed by digits; anything else fails
(raises `ValueError`, modelled as `none`). -/
def pyIntOfString (s : String) : Option Int :=
  match s.data with
  | '-' :: rest => (pyNatOfChars rest).map (fun n => -(n : Int))
  | '+' :: rest => (pyNatOfChars rest).map (fun n => (n : Int))
  | cs => (pyNatOfChars cs).map (fun n => (n : Int))

/-- Python code-point-wise lexicographic string comparison (`s <= t`),
on character lists. -/
def pyLeChars : List Char → List Char → Bool
  | [], _ => true
  | _ :: _, [] => false
  | a :: as, b :: bs =>
    if a.toNat < b.toNat then true
    else if b.toNat < a.toNat then false
    else pyLeChars as bs

/-- Python `s <= t` on strings. -/
def pyStrLe (s t : String) : Bool :=
  pyLeChars s.data t.data

/-! ## `app/services/last5_form.py` -/

/-- Model of `int(v) if v is not None and v != "" else None` under the
surrounding `try/except` (a parse failure becomes `None`), as used for
both the `score` field and a linescore `value`
(`app/services/last5_form.py`, `_get_scores`). -/
def parseScoreField : Option String → Option Int
  | none => none
  | some s => if s = "" then none else pyIntOfString s

/-- The nested `_get_scores` of `_extract_team_view_from_event`
(`app/services/last5_form.py` lines 127-143): the full score comes from
the competitor's `score` field; the first-half figure comes from
`linescores[0].value` — the same first-entry rule for every sport — and
is `none` when the linescore list is empty or the value is absent,
empty, or unparseable.  Returns `(full, firstHalf)`. -/
def getScores (c : Competitor) : Option Int × Option Int :=
  (parseScoreField c.score,
   match c.linescores with
   | [] => none
   | v :: _ => parseScoreField v)

/-- The per-team "view" dictionary built by
`_extract_team_view_from_event` (`app/services/last5_form.py`
lines 151-167). -/
structure TeamView where
  eventId : Option String
  sport : String
  teamId : Option String
  teamName : Option String
  teamAbbr : Option String
  opponentId : Option String
  opponentName : Option String
  opponentAbbr : Option String
  isHome : Bool
  final : Option Int
  oppFinal : Option Int
  firstHalf : Option Int
  oppFirstHalf : Option Int
  state : Option String
  date : Option String
deriving DecidableEq

/-- The competitor picked as "our team" by the loop in
`_extract_team_view_from_event` (lines 114-122): every match overwrites
`team_comp`, so it is the LAST competitor whose stringified team id
equals `team_id`. -/
def matchedTeamComp (teamId : String) (competitors : List Competitor) :
    Option Competitor :=
  (competitors.filter (fun c => pyStr c.teamId == teamId)).getLast?

/-- The competitor picked as the opponent by the same loop: the FIRST
competitor whose id does not match (`if opp_comp is None`). -/
def firstOppComp (teamId : String) (competitors : List Competitor) :
    Option Competitor :=
  competitors.find? (fun c => pyStr c.teamId != teamId)

/-- `_extract_team_view_from_event` (`app/services/last5_form.py`
lines 82-171): the view of one raw event from `team_id`'s perspective,
`none` when the event has no competitions, is not in the `"post"`
state, has fewer than two competitors, or one of the two sides cannot be
identified. -/
def extractTeamView (sport teamId : String) (event : Event) :
    Option TeamView :=
  match event.competitions with
  | [] => none
  | comp :: _ =>
    if comp.statusType.state ≠ some "post" then none
    else if comp.competitors.length < 2 then none
    else
      match matchedTeamComp teamId comp.competitors,
            firstOppComp teamId comp.competitors with
      | some tc, some oc =>
        let ts := getScores tc
        let os := getScores oc
        some {
          eventId := event.id
          sport := sport
          teamId := tc.teamId
          teamName := pyOrS tc.displayName tc.name
          teamAbbr := tc.abbreviation
          opponentId := oc.teamId
          opponentName := pyOrS oc.displayName oc.name
          opponentAbbr := oc.abbreviation
          isHome := tc.homeAway == some "home"
          final := ts.1
          oppFinal := os.1
          firstHalf := ts.2
          oppFirstHalf := os.2
          state := comp.statusType.state
          date := event.date }
      | _, _ => none

/-- Inner per-day loop of `_get_last_n_games_for_team_generic`
(`app/services/last5_form.py` lines 203-209): walk the day's events in
order, re-checking `len(games) >= n` before each event, appending each
successfully extracted view. -/
def collectDayGeneric (sport teamId : String) (n : Nat) :
    List Event → List TeamView → List TeamView
  | [], games => games
  | ev :: evs, games =>
    if n ≤ games.length then games
    else
      match extractTeamView sport teamId ev with
      | none => collectDayGeneric sport teamId n evs games
      | some v => collectDayGeneric sport teamId n evs (games ++ [v])

/-- Day loop of `_get_last_n_games_for_team_generic`
(`app/services/last5_form.py` lines 192-209): `delta` walks `0, 1, …`
and `fuel` is the number of loop iterations left out of `max_days_back`.
The Python body has no `try/except` around the fetch, so ANY fetch
failure propagates out of the whole scan.  The second component of the
result is the instrumented list of days actually fetched. -/
def scanLoopGeneric (fetch : Int → Except FetchErr (List Event))
    (sport teamId : String) (n : Nat) (today : Int) :
    Nat → Nat → List TeamView → List Int →
    Except FetchErr (List TeamView × List Int)
  | _, 0, games, days => .ok (games, days)
  | delta, fuel + 1, games, days =>
    if n ≤ games.length then .ok (games, days)
    else
      match fetch (today - delta) with
      | .error e => .error e
      | .ok events =>
        scanLoopGeneric fetch sport teamId n today (delta + 1) fuel
          (collectDayGeneric sport teamId n events games)
          (days ++ [today - delta])

/-- Sort key of `games.sort(key=lambda g: g.get("date") or "",
reverse=True)`: the date string, with `None` keyed as `""`. -/
def dateKey (v : TeamView) : String :=
  match v.date with
  | none => ""
  | some s => s

/-- One insertion step of a stable descending sort on the date key: `x`
goes before the first element whose key it reaches or ties (elements
originally before `x` with an equal key stay before it). -/
def insertByDateDesc (x : TeamView) : List TeamView → List TeamView
  | [] => [x]
  | y :: ys =>
    if pyStrLe (dateKey y) (dateKey x) then x :: y :: ys
    else y :: insertByDateDesc x ys

/-- Python's stable `list.sort(..., reverse=True)` on the date key: a
stable descending sort — ties keep scan order.  (A stable sort for a
total key comparison is a unique function, so this insertion sort
computes exactly what Python's stable sort computes.) -/
def sortGamesDesc (games : List TeamView) : List TeamView :=
  games.foldr insertByDateDesc []

/-- `_get_last_n_games_for_team_generic` (`app/services/last5_form.py`
lines 174-218): backward day-walk starting at `today` (delta `0`), then
a stable newest-first sort and a cap at `n`. -/
def getLastNGamesGeneric (fetch : Int → Except FetchErr (List Event))
    (sport teamId : String) (n maxDaysBack : Nat) (today : Int) :
    Except FetchErr (List TeamView × List Int) :=
  match scanLoopGeneric fetch sport teamId n today 0 maxDaysBack [] [] with
  | .error e => .error e
  | .ok (games, days) =>
    let sorted := sortGamesDesc games
    .ok (if n < sorted.length then sorted.take n else sorted, days)

/-- Result dictionary of `get_form_summary`
(`app/services/last5_form.py` lines 225-260). -/
structure GenericSummary where
  sport : String
  teamId : String
  nRequested : Nat
  nFound : Nat
  games : List TeamView
  note : Option String
deriving DecidableEq

/-- The four keys of `SPORT_CONFIG` (`app/services/last5_form.py`
lines 15-36). -/
def supportedSports : List String :=
  ["cbb", "nfl", "nhl", "cfb"]

/-- The supported-sport branch of `get_form_summary` (lines 253-260):
scan with the scanner's default `max_days_back = 60` and wrap the result
list. -/
def scanBranch (fetch : Int → Except FetchErr (List Event))
    (sport teamId : String) (n : Nat) (today : Int) :
    Except FetchErr (GenericSummary × List Int) :=
  match getLastNGamesGeneric fetch sport teamId n 60 today with
  | .error e => .error e
  | .ok (games, days) =>
    .ok ({ sport := sport, teamId := teamId, nRequested := n,
           nFound := games.length, games := games, note := none }, days)

/-- `get_form_summary` (`app/services/last5_form.py` lines 225-260):
lowercases the sport key, returns the `"unsupported sport"` dictionary
without any upstream call when the key is not in `SPORT_CONFIG`, and
otherwise delegates to the generic scanner. -/
def getFormSummary (fetch : Int → Except FetchErr (List Event))
    (sport teamId : String) (n : Nat) (today : Int) :
    Except FetchErr (GenericSummary × List Int) :=
  let s := pyLower sport
  if s ∈ supportedSports then scanBranch fetch s teamId n today
  else
    .ok ({ sport := s, teamId := teamId, nRequested := n, nFound := 0,
           games := [], note := some "unsupported sport" }, [])

/-! ## `app/routers/form_routes.py` -/

/-- Model of `(ev.get("competitions") or [ ... ])[0]` as used throughout
`form_routes.py`: the first competition, or an all-empty one when the
array is missing or empty. -/
def firstCompetition (ev : Event) : Competition :=
  ev.competitions.headD
    { statusType := { state := none, completed := false }, competitors := [] }

/-- `_event_includes_team` (`app/routers/form_routes.py` lines 43-50). -/
def eventIncludesTeam (ev : Event) (teamId : String) : Bool :=
  (firstCompetition ev).competitors.any (fun c => pyStr c.teamId == teamId)

/-- `_event_completed` (`app/routers/form_routes.py` lines 53-57):
`bool(stype.get("completed"))`. -/
def eventCompleted (ev : Event) : Bool :=
  (firstCompetition ev).statusType.completed

/-- `_find_team_and_opp` (`app/routers/form_routes.py` lines 60-76):
both sides are overwritten on every loop iteration, so each is the LAST
competitor whose id (does not) match. -/
def findTeamAndOpp (ev : Event) (teamId : String) :
    Option Competitor × Option Competitor :=
  (((firstCompetition ev).competitors.filter
      (fun c => pyStr c.teamId == teamId)).getLast?,
   ((firstCompetition ev).competitors.filter
      (fun c => pyStr c.teamId != teamId)).getLast?)

/-- Whether one event qualifies for collection in the router scanner:
it contains the team and is completed
(`app/routers/form_routes.py` lines 116-119). -/
def qualifiesRoutes (teamId : String) (ev : Event) : Bool :=
  eventIncludesTeam ev teamId && eventCompleted ev

/-- Inner per-day loop of `_get_last_n_games_for_team`
(`app/routers/form_routes.py` lines 115-124): append every qualifying
event of the day in order, breaking as soon as the accumulator reaches
`n` — the stop condition is checked after EACH append. -/
def collectDayRoutes (teamId : String) (n : Nat) :
    List Event → List Event → List Event
  | [], collected => collected
  | ev :: evs, collected =>
    if qualifiesRoutes teamId ev then
      let c := collected ++ [ev]
      if n ≤ c.length then c else collectDayRoutes teamId n evs c
    else collectDayRoutes teamId n evs collected

/-- Day loop of `_get_last_n_games_for_team`
(`app/routers/form_routes.py` lines 104-124): only
`httpx.HTTPStatusError` is caught (logged and `continue`); every other
exception raised by a day's fetch propagates out of the scan. -/
def scanLoopRoutes (fetch : Int → Except FetchErr (List Event))
    (teamId : String) (n : Nat) (today : Int) :
    Nat → Nat → List Event → List Int →
    Except FetchErr (List Event × List Int)
  | _, 0, collected, days => .ok (collected, days)
  | delta, fuel + 1, collected, days =>
    if n ≤ collected.length then .ok (collected, days)
    else
      match fetch (today - delta) with
      | .error .statusError =>
        scanLoopRoutes fetch teamId n today (delta + 1) fuel collected
          (days ++ [today - delta])
      | .error .transportError => .error .transportError
      | .ok events =>
        scanLoopRoutes fetch teamId n today (delta + 1) fuel
          (collectDayRoutes teamId n events collected)
          (days ++ [today - delta])

/-- `_get_last_n_games_for_team` (`app/routers/form_routes.py`
lines 89-133); the Python default is `max_back_days = 90`.  The
collected raw events are returned untrimmed and unsorted, together with
the instrumented list of days fetched. -/
def getLastNGamesForTeam (fetch : Int → Except FetchErr (List Event))
    (teamId : String) (n maxBackDays : Nat) (today : Int) :
    Except FetchErr (List Event × List Int) :=
  scanLoopRoutes fetch teamId n today 0 maxBackDays [] []

/-- Python `float(c.get("score") or 0)` under `except ValueError: 0.0`
(`app/routers/form_routes.py` lines 180-187): a missing or empty score
is `0`, an unparseable string is `0`; the integral score strings the
feed produces are modelled exactly, in `ℚ`. -/
def parseFloatScore (s : Option String) : ℚ :=
  match s with
  | none => 0
  | some str =>
    if str = "" then 0
    else
      match pyIntOfString str with
      | none => 0
      | some k => (k : ℚ)

/-- Result dictionary of `_summarize_team_form`
(`app/routers/form_routes.py` lines 136-209). -/
structure FormSummary where
  sport : String
  teamId : String
  teamName : String
  nRequested : Nat
  nFound : Nat
  avg1HScored : Option ℚ
  avg1HAllowed : Option ℚ
  avgFullScored : Option ℚ
  avgFullAllowed : Option ℚ
deriving DecidableEq

/-- One step of the accumulation loop of `_summarize_team_form`
(`app/routers/form_routes.py` lines 166-190): skip events where either
side is missing, otherwise remember the first truthy team name and add
the zero-coerced scores.  Accumulator: (total scored, total allowed,
team name so far). -/
def summarizeStep (teamId : String) (acc : ℚ × ℚ × Option String)
    (ev : Event) : ℚ × ℚ × Option String :=
  match findTeamAndOpp ev teamId with
  | (some ours, some opp) =>
    let tn : Option String :=
      match acc.2.2 with
      | none => pyOrS ours.displayName (pyOrS ours.name (some teamId))
      | some s =>
        if s = "" then pyOrS ours.displayName (pyOrS ours.name (some teamId))
        else some s
    (acc.1 + parseFloatScore ours.score,
     acc.2.1 + parseFloatScore opp.score, tn)
  | _ => acc

/-- `_summarize_team_form` (`app/routers/form_routes.py` lines 136-209):
the full-game averages divide the zero-coerced totals by `n_found` — the
number of ALL games passed in — and the first-half fields are hard-coded
`None` ("left as None until we wire robust period parsing"). -/
def summarizeTeamForm (sport teamId : String) (games : List Event)
    (nRequested : Nat) : FormSummary :=
  if games.length = 0 then
    { sport := sport, teamId := teamId, teamName := teamId,
      nRequested := nRequested, nFound := 0,
      avg1HScored := none, avg1HAllowed := none,
      avgFullScored := none, avgFullAllowed := none }
  else
    let acc := games.foldl (summarizeStep teamId) (0, 0, none)
    let teamName :=
      match acc.2.2 with
      | none => teamId
      | some s => if s = "" then teamId else s
    { sport := sport, teamId := teamId, teamName := teamName,
      nRequested := nRequested, nFound := games.length,
      avg1HScored := none, avg1HAllowed := none,
      avgFullScored := some (acc.1 / (games.length : ℚ)),
      avgFullAllowed := some (acc.2.1 / (games.length : ℚ)) }

/-! ## Definitions written from the spec's words, for comparison -/

/-- Modelled from the spec (§4.2/§4.4): the first-half figure of one raw
event from `teamId`'s perspective, as the normalizer derives it (the
value of period index 0 of the team's linescores); used only to state
what the aggregator should average. -/
def specFirstHalfScored (teamId : String) (ev : Event) : Option Int :=
  (ev.competitions.head?).bind fun comp =>
    (matchedTeamComp teamId comp.competitors).bind fun tc => (getScores tc).2

/-- Modelled from the spec (§4.4): the arithmetic mean of the non-null
first-half figures of `games`, or `none` when that subset is empty. -/
def avgFirstHalfScoredSpec (teamId : String) (games : List Event) :
    Option ℚ :=
  let vals := games.filterMap (specFirstHalfScored teamId)
  if vals.length = 0 then none
  else some ((vals.map (fun k => (k : ℚ))).sum / (vals.length : ℚ))

/-- Modelled from the spec (§4.4): a strictly-parsed full-game score, so
that a missing or unparseable field can be EXCLUDED from the mean. -/
def parseScoreStrict (s : Option String) : Option ℚ :=
  match s with
  | none => none
  | some str =>
    if str = "" then none else (pyIntOfString str).map (fun k => (k : ℚ))

/-- Modelled from the spec (§4.4): the full-game scored mean with
missing or unparseable score fields excluded from the average (both from
the numerator and the denominator). -/
def avgFullScoredExcludingSpec (teamId : String) (games : List Event) :
    Option ℚ :=
  let vals := games.filterMap (fun ev =>
    (findTeamAndOpp ev teamId).1.bind fun ours => parseScoreStrict ours.score)
  if vals.length = 0 then none
  else some (vals.sum / (vals.length : ℚ))

/-! ## Builders for concrete test inputs -/

/-- Builder for a competitor with a given id, score and linescores. -/
def mkCompetitor (tid : String) (score : Option String)
    (lines : List (Option String)) : Competitor :=
  { teamId := some tid, displayName := some ("Team " ++ tid),
    name := some tid, abbreviation := some tid, homeAway := some "home",
    score := score, linescores := lines }

/-- Builder for a completed (`"post"`, `completed = true`) two-competitor
event. -/
def mkEvent (eid date : String) (a b : Competitor) : Event :=
  { id := some eid, date := some date,
    competitions := [{ statusType := { state := some "post", completed := true },
                       competitors := [a, b] }] }

/-- A fetch that turns a day's failure (of either kind) into the
zero-event success, leaving successful days untouched — the "treated
identically to a zero-event day" reading of spec §7. -/
def zeroEventRecovery (fetch : Int → Except FetchErr (List Event)) :
    Int → Except FetchErr (List Event) :=
  fun d =>
    match fetch d with
    | .error _ => .ok []
    | .ok evs => .ok evs

/-- Number of days fetched by a finished scan (`0` for a raised scan);
projection used to state day-count facts about concrete runs. -/
def okDaysLength {α : Type} : Except FetchErr (α × List Int) → Nat
  | .ok p => p.2.length
  | .error _ => 0

/-- The full-game "scored" contribution of one event in the aggregation
loop of `_summarize_team_form`: the zero-coerced score of our side, or
`0` when either side is missing (the loop then skips the event while the
denominator still counts it). -/
def coercedScored (teamId : String) (ev : Event) : ℚ :=
  match findTeamAndOpp ev teamId with
  | (some ours, some _) => parseFloatScore ours.score
  | _ => 0

/-- The full-game "allowed" contribution of one event in the aggregation
loop of `_summarize_team_form`. -/
def coercedAllowed (teamId : String) (ev : Event) : ℚ :=
  match findTeamAndOpp ev teamId with
  | (some _, some opp) => parseFloatScore opp.score
  | _ => 0

/-! ## Concrete test inputs -/

/-- A completed NFL game with quarter linescores `7, 10` for team `"12"`
and `3, 0` for the opponent. -/
def evQuarters : Event :=
  mkEvent "q1" "20260111" (mkCompetitor "12" (some "21") [some "7", some "10"])
    (mkCompetitor "13" (some "14") [some "3", some "0"])

/-- The view the normalizer produces for `evQuarters` (first half `7`:
the index-0 value alone). -/
def vQuarters : TeamView :=
  { eventId := some "q1", sport := "nfl", teamId := some "12",
    teamName := some "Team 12", teamAbbr := some "12",
    opponentId := some "13", opponentName := some "Team 13",
    opponentAbbr := some "13", isHome := true, final := some 21,
    oppFinal := some 14, firstHalf := some 7, oppFirstHalf := some 3,
    state := some "post", date := some "20260111" }

/-- A completed game where team `"3"` has a derivable first-half figure
of `38`. -/
def ev1H : Event :=
  mkEvent "g1" "20260110" (mkCompetitor "3" (some "80") [some "38"])
    (mkCompetitor "9" (some "75") [some "34"])

/-- A completed game with a parseable score `80` for team `"4"`. -/
def evScoreA : Event :=
  mkEvent "a1" "20260112" (mkCompetitor "4" (some "80") [])
    (mkCompetitor "9" (some "75") [])

/-- A completed game with an unparseable score for team `"4"`. -/
def evScoreB : Event :=
  mkEvent "a2" "20260113" (mkCompetitor "4" (some "abc") [])
    (mkCompetitor "9" (some "xyz") [])

/-- One completed game for team `"7"` on day `d`. -/
def wEvent (d : Int) : Event :=
  mkEvent (toString d) (toString d) (mkCompetitor "7" (some "3") [])
    (mkCompetitor "8" (some "2") [])

/-- An upstream failing with an HTTP status error on 3 of the days
`0 … 9` and returning one completed game for team `"7"` elsewhere. -/
def wFetch : Int → Except FetchErr (List Event) := fun d =>
  if d = 1 ∨ d = 4 ∨ d = 7 then .error .statusError else .ok [wEvent d]

/-- An upstream whose first scanned day fails with a timeout-style
transport error. -/
def failFirstFetch : Int → Except FetchErr (List Event) := fun d =>
  if d = 0 then .error .transportError else .ok [wEvent d]

/-- A completed game dated on the caller's current day. -/
def todayEvent : Event :=
  mkEvent "t1" "20261012" (mkCompetitor "5" (some "80") [some "38"])
    (mkCompetitor "6" (some "75") [some "34"])

/-- The view the normalizer produces for `todayEvent`. -/
def todayView : TeamView :=
  { eventId := some "t1", sport := "cbb", teamId := some "5",
    teamName := some "Team 5", teamAbbr := some "5",
    opponentId := some "6", opponentName := some "Team 6",
    opponentAbbr := some "6", isHome := true, final := some 80,
    oppFinal := some 75, firstHalf := some 38, oppFirstHalf := some 34,
    state := some "post", date := some "20261012" }

/-- An upstream with `todayEvent` on day `100` and nothing elsewhere. -/
def todayOnlyFetch : Int → Except FetchErr (List Event) := fun d =>
  if d = 100 then .ok [todayEvent] else .ok []

/-- First completed game of a doubleheader day for team `"9"`. -/
def evDupA : Event :=
  mkEvent "d1" "20260114" (mkCompetitor "9" (some "70") [])
    (mkCompetitor "2" (some "60") [])

/-- Second completed game of the same doubleheader day. -/
def evDupB : Event :=
  mkEvent "d2" "20260114" (mkCompetitor "9" (some "71") [])
    (mkCompetitor "2" (some "61") [])

/-- A completed game on the same day not involving team `"9"`. -/
def evOther : Event :=
  mkEvent "d3" "20260114" (mkCompetitor "3" (some "50") [])
    (mkCompetitor "2" (some "40") [])

/-- An upstream with the doubleheader day at `50` and nothing else. -/
def dupDayFetch : Int → Except FetchErr (List Event) := fun d =>
  if d = 50 then .ok [evDupA, evDupB] else .ok []

/-! ## Helper lemmas about the day loops -/

/-- Prepending the day at `delta` to the days of `delta + 1 …` gives the
days of `delta …`. -/
theorem range_map_shift (today : Int) (delta k : Nat) :
    (today - (delta : Int)) ::
      (List.range k).map (fun i => today - ((delta + 1 + i : Nat) : Int))
      = (List.range (k + 1)).map (fun i => today - ((delta + i : Nat) : Int)) := by
  rw [List.range_succ_eq_map, List.map_cons, List.map_map]
  refine congrArg₂ List.cons (by simp) (List.map_congr_left ?_)
  intro i _
  simp only [Function.comp_apply, Nat.succ_eq_add_one]
  omega

/-- Days fetched by the router day loop: an initial backward segment of
calendar days starting at `today - delta`, of length at most the
remaining fuel. -/
theorem scanLoopRoutes_days (fetch : Int → Except FetchErr (List Event))
    (tid : String) (n : Nat) (today : Int) :
    ∀ (fuel delta : Nat) (c : List Event) (ds : List Int)
      (p : List Event × List Int),
      scanLoopRoutes fetch tid n today delta fuel c ds = .ok p →
      ∃ k, k ≤ fuel ∧
        p.2 = ds ++ (List.range k).map (fun i => today - ((delta + i : Nat) : Int)) := by
  intro fuel
  induction fuel with
  | zero =>
    intro delta c ds p h
    simp only [scanLoopRoutes, Except.ok.injEq] at h
    exact ⟨0, Nat.le_refl 0, by simp [← h]⟩
  | succ fuel ih =>
    intro delta c ds p h
    simp only [scanLoopRoutes] at h
    split at h
    · simp only [Except.ok.injEq] at h
      exact ⟨0, Nat.zero_le _, by simp [← h]⟩
    · cases hf : fetch (today - delta) with
      | error e =>
        cases e with
        | statusError =>
          rw [hf] at h
          obtain ⟨k, hk, hds⟩ := ih (delta + 1) c (ds ++ [today - delta]) p h
          refine ⟨k + 1, by omega, ?_⟩
          rw [hds, List.append_assoc, List.singleton_append, range_map_shift]
        | transportError => rw [hf] at h; exact absurd h (by simp)
      | ok events =>
        rw [hf] at h
        obtain ⟨k, hk, hds⟩ :=
          ih (delta + 1) (collectDayRoutes tid n events c) (ds ++ [today - delta]) p h
        refine ⟨k + 1, by omega, ?_⟩
        rw [hds, List.append_assoc, List.singleton_append, range_map_shift]

/-- Against an upstream that answers every day with zero events, the
router day loop runs through its whole fuel, collecting nothing. -/
theorem scanLoopRoutes_allEmpty (fetch : Int → Except FetchErr (List Event))
    (tid : String) (n : Nat) (today : Int)
    (hf : ∀ d, fetch d = .ok []) :
    ∀ (fuel delta : Nat) (c : List Event) (ds : List Int), c.length < n →
      scanLoopRoutes fetch tid n today delta fuel c ds
        = .ok (c, ds ++ (List.range fuel).map (fun i => today - ((delta + i : Nat) : Int))) := by
  intro fuel
  induction fuel with
  | zero => intro delta c ds hc; simp [scanLoopRoutes]
  | succ fuel ih =>
    intro delta c ds hc
    simp only [scanLoopRoutes]
    rw [if_neg (by omega), hf (today - delta)]
    show scanLoopRoutes fetch tid n today (delta + 1) fuel c (ds ++ [today - delta]) = _
    rw [ih (delta + 1) c (ds ++ [today - delta]) hc,
      List.append_assoc, List.singleton_append, range_map_shift]

/-- When no day fails with a non-status transport error, the router day
loop behaves exactly as if every failing day had returned zero events. -/
theorem scanLoopRoutes_recover (fetch : Int → Except FetchErr (List Event))
    (tid : String) (n : Nat) (today : Int)
    (hf : ∀ d, fetch d ≠ .error .transportError) :
    ∀ (fuel delta : Nat) (c : List Event) (ds : List Int),
      scanLoopRoutes fetch tid n today delta fuel c ds
        = scanLoopRoutes (zeroEventRecovery fetch) tid n today delta fuel c ds := by
  intro fuel
  induction fuel with
  | zero => intro delta c ds; rfl
  | succ fuel ih =>
    intro delta c ds
    simp only [scanLoopRoutes]
    split
    · rfl
    · cases hfd : fetch (today - delta) with
      | error e =>
        cases e with
        | statusError =>
          have hr : zeroEventRecovery fetch (today - delta) = .ok [] := by
            simp [zeroEventRecovery, hfd]
          rw [hr]
          show scanLoopRoutes fetch tid n today (delta + 1) fuel c (ds ++ [today - delta])
            = scanLoopRoutes (zeroEventRecovery fetch) tid n today (delta + 1) fuel
                (collectDayRoutes tid n [] c) (ds ++ [today - delta])
          exact ih (delta + 1) c (ds ++ [today - delta])
        | transportError => exact absurd hfd (hf (today - delta))
      | ok events =>
        have hr : zeroEventRecovery fetch (today - delta) = .ok events := by
          simp [zeroEventRecovery, hfd]
        rw [hr]
        exact ih (delta + 1) (collectDayRoutes tid n events c) (ds ++ [today - delta])

/-- A day loop over a fetch that never raises finishes with a result. -/
theorem scanLoopRoutes_ok_of_fetch_ok (fetch : Int → Except FetchErr (List Event))
    (tid : String) (n : Nat) (today : Int)
    (hf : ∀ d, ∃ evs, fetch d = .ok evs) :
    ∀ (fuel delta : Nat) (c : List Event) (ds : List Int),
      ∃ p, scanLoopRoutes fetch tid n today delta fuel c ds = .ok p := by
  intro fuel
  induction fuel with
  | zero => intro delta c ds; exact ⟨(c, ds), rfl⟩
  | succ fuel ih =>
    intro delta c ds
    simp only [scanLoopRoutes]
    split
    · exact ⟨(c, ds), rfl⟩
    · obtain ⟨evs, he⟩ := hf (today - delta)
      rw [he]
      exact ih (delta + 1) (collectDayRoutes tid n evs c) (ds ++ [today - delta])

/-- The recovered fetch never raises. -/
theorem zeroEventRecovery_ok (fetch : Int → Except FetchErr (List Event)) :
    ∀ d, ∃ evs, zeroEventRecovery fetch d = .ok evs := by
  intro d
  unfold zeroEventRecovery
  cases fetch d with
  | error e => exact ⟨[], rfl⟩
  | ok evs => exact ⟨evs, rfl⟩

/-- Days fetched by the generic (service) day loop: an initial backward
segment of calendar days starting at `today - delta`, of length at most
the remaining fuel. -/
theorem scanLoopGeneric_days (fetch : Int → Except FetchErr (List Event))
    (sport tid : String) (n : Nat) (today : Int) :
    ∀ (fuel delta : Nat) (g : List TeamView) (ds : List Int)
      (p : List TeamView × List Int),
      scanLoopGeneric fetch sport tid n today delta fuel g ds = .ok p →
      ∃ k, k ≤ fuel ∧
        p.2 = ds ++ (List.range k).map (fun i => today - ((delta + i : Nat) : Int)) := by
  intro fuel
  induction fuel with
  | zero =>
    intro delta g ds p h
    simp only [scanLoopGeneric, Except.ok.injEq] at h
    exact ⟨0, Nat.le_refl 0, by simp [← h]⟩
  | succ fuel ih =>
    intro delta g ds p h
    simp only [scanLoopGeneric] at h
    split at h
    · simp only [Except.ok.injEq] at h
      exact ⟨0, Nat.zero_le _, by simp [← h]⟩
    · cases hf : fetch (today - delta) with
      | error e => rw [hf] at h; exact absurd h (by simp)
      | ok events =>
        rw [hf] at h
        obtain ⟨k, hk, hds⟩ :=
          ih (delta + 1) (collectDayGeneric sport tid n events g)
            (ds ++ [today - delta]) p h
        refine ⟨k + 1, by omega, ?_⟩
        rw [hds, List.append_assoc, List.singleton_append, range_map_shift]

/-- Against an upstream answering every day with zero events, the
generic day loop runs through its whole fuel, collecting nothing. -/
theorem scanLoopGeneric_allEmpty (fetch : Int → Except FetchErr (List Event))
    (sport tid : String) (n : Nat) (today : Int)
    (hf : ∀ d, fetch d = .ok []) :
    ∀ (fuel delta : Nat) (g : List TeamView) (ds : List Int), g.length < n →
      scanLoopGeneric fetch sport tid n today delta fuel g ds
        = .ok (g, ds ++ (List.range fuel).map (fun i => today - ((delta + i : Nat) : Int))) := by
  intro fuel
  induction fuel with
  | zero => intro delta g ds hg; simp [scanLoopGeneric]
  | succ fuel ih =>
    intro delta g ds hg
    simp only [scanLoopGeneric]
    rw [if_neg (by omega), hf (today - delta)]
    show scanLoopGeneric fetch sport tid n today (delta + 1) fuel g (ds ++ [today - delta]) = _
    rw [ih (delta + 1) g (ds ++ [today - delta]) hg,
      List.append_assoc, List.singleton_append, range_map_shift]

/-- The generic scanner caps its result list at `n`. -/
theorem getLastNGamesGeneric_length_le (fetch : Int → Except FetchErr (List Event))
    (sport tid : String) (n maxDaysBack : Nat) (today : Int)
    (p : List TeamView × List Int)
    (h : getLastNGamesGeneric fetch sport tid n maxDaysBack today = .ok p) :
    p.1.length ≤ n := by
  unfold getLastNGamesGeneric at h
  cases hs : scanLoopGeneric fetch sport tid n today 0 maxDaysBack [] [] with
  | error e => rw [hs] at h; exact absurd h (by simp)
  | ok q =>
    rw [hs] at h
    simp only [Except.ok.injEq] at h
    obtain ⟨games, days⟩ := q
    rw [← h]
    dsimp only
    split
    · simp [List.length_take]
    · omega

/-- Claim C6 (corrected): on a scanned day the router scanner appends
the day's qualifying games in order — several per day when room remains,
not just the first — but the stop condition is checked after EACH
append, so the day contributes exactly the qualifying prefix that fits
the remaining room `n - |accumulator|` and can be cut off mid-day once
`n` is reached (see the counterexample). -/
theorem collectDayRoutes_take (tid : String) (n : Nat) :
    ∀ (evs : List Event) (c : List Event), c.length < n →
      collectDayRoutes tid n evs c
        = c ++ (evs.filter (qualifiesRoutes tid)).take (n - c.length) := by
  intro evs
  induction evs with
  | nil => intro c hc; simp [collectDayRoutes]
  | cons ev evs ih =>
    intro c hc
    cases hq : qualifiesRoutes tid ev with
    | false =>
      have h1 : collectDayRoutes tid n (ev :: evs) c = collectDayRoutes tid n evs c := by
        simp [collectDayRoutes, hq]
      have h2 : (ev :: evs).filter (qualifiesRoutes tid) = evs.filter (qualifiesRoutes tid) := by
        simp [List.filter_cons, hq]
      rw [h1, h2]
      exact ih c hc
    | true =>
      have h1 : collectDayRoutes tid n (ev :: evs) c
          = if n ≤ (c ++ [ev]).length then c ++ [ev]
            else collectDayRoutes tid n evs (c ++ [ev]) := by
        simp [collectDayRoutes, hq]
      have h2 : (ev :: evs).filter (qualifiesRoutes tid)
          = ev :: evs.filter (qualifiesRoutes tid) := by
        simp [List.filter_cons, hq]
      by_cases hn : n ≤ (c ++ [ev]).length
      · have hlen : n - c.length = 1 := by simp at hn; omega
        rw [h1, if_pos hn, h2, hlen]
        simp
      · have hc2 : (c ++ [ev]).length < n := by simp at hn ⊢; omega
        have hlen : n - c.length = (n - (c ++ [ev]).length) + 1 := by
          simp at hn ⊢; omega
        rw [h1, if_neg hn, ih (c ++ [ev]) hc2, h2, hlen, List.take_succ_cons,
          List.append_assoc, List.singleton_append]

/-- The scored total of the aggregation loop is the sum of the
zero-coerced per-event scores. -/
theorem foldl_summarizeStep_fst (tid : String) :
    ∀ (games : List Event) (a b : ℚ) (tn : Option String),
      (games.foldl (summarizeStep tid) (a, b, tn)).1
        = a + (games.map (coercedScored tid)).sum := by
  intro games
  induction games with
  | nil => intro a b tn; simp
  | cons ev games ih =>
    intro a b tn
    simp only [List.foldl_cons, List.map_cons, List.sum_cons]
    rw [show summarizeStep tid (a, b, tn) ev
        = (a + coercedScored tid ev, b + coercedAllowed tid ev,
           (summarizeStep tid (a, b, tn) ev).2.2) from ?_, ih]
    · ring
    · unfold summarizeStep coercedScored coercedAllowed
      rcases h : findTeamAndOpp ev tid with ⟨o1, o2⟩
      rcases o1 with _ | ours <;> rcases o2 with _ | opp <;> simp

/-- The allowed total of the aggregation loop is the sum of the
zero-coerced per-event opponent scores. -/
theorem foldl_summarizeStep_snd (tid : String) :
    ∀ (games : List Event) (a b : ℚ) (tn : Option String),
      (games.foldl (summarizeStep tid) (a, b, tn)).2.1
        = b + (games.map (coercedAllowed tid)).sum := by
  intro games
  induction games with
  | nil => intro a b tn; simp
  | cons ev games ih =>
    intro a b tn
    simp only [List.foldl_cons, List.map_cons, List.sum_cons]
    rw [show summarizeStep tid (a, b, tn) ev
        = (a + coercedScored tid ev, b + coercedAllowed tid ev,
           (summarizeStep tid (a, b, tn) ev).2.2) from ?_, ih]
    · ring
    · unfold summarizeStep coercedScored coercedAllowed
      rcases h : findTeamAndOpp ev tid with ⟨o1, o2⟩
      rcases o1 with _ | ours <;> rcases o2 with _ | opp <;> simp

/-- Days fetched by a finished generic scan: exactly the backward
segment starting at `today`. -/
theorem getLastNGamesGeneric_days (fetch : Int → Except FetchErr (List Event))
    (sport tid : String) (n maxDaysBack : Nat) (today : Int)
    (p : List TeamView × List Int)
    (h : getLastNGamesGeneric fetch sport tid n maxDaysBack today = .ok p) :
    ∃ k, k ≤ maxDaysBack ∧
      p.2 = (List.range k).map (fun (i : Nat) => today - (i : Int)) := by
  obtain ⟨p1, p2⟩ := p
  unfold getLastNGamesGeneric at h
  cases hs : scanLoopGeneric fetch sport tid n today 0 maxDaysBack [] [] with
  | error e => rw [hs] at h; exact absurd h (by simp)
  | ok q =>
    obtain ⟨games, days⟩ := q
    rw [hs] at h
    obtain ⟨k, hk, hds⟩ :=
      scanLoopGeneric_days fetch sport tid n today maxDaysBack 0 [] []
        (games, days) hs
    refine ⟨k, hk, ?_⟩
    have h2 : days = p2 := by
      have h3 : (Except.ok
          (if n < (sortGamesDesc games).length then (sortGamesDesc games).take n
           else sortGamesDesc games, days)
          : Except FetchErr (List TeamView × List Int)) = .ok (p1, p2) := h
      simp only [Except.ok.injEq, Prod.mk.injEq] at h3
      exact h3.2
    rw [← h2]
    simpa using hds

/-- A generic scan over an all-empty upstream with `0 < n` collects
nothing and fetches its whole window. -/
theorem getLastNGamesGeneric_allEmpty (fetch : Int → Except FetchErr (List Event))
    (sport tid : String) (n maxDaysBack : Nat) (today : Int)
    (hf : ∀ d, fetch d = .ok []) (hn : 0 < n) :
    getLastNGamesGeneric fetch sport tid n maxDaysBack today
      = .ok ([], (List.range maxDaysBack).map fun (i : Nat) => today - (i : Int)) := by
  unfold getLastNGamesGeneric
  rw [scanLoopGeneric_allEmpty fetch sport tid n today hf maxDaysBack 0 [] []
    (by simpa using hn)]
  simp [sortGamesDesc]

/-! ## Claims -/

/-- Claim C4 (corrected): in the aggregator the first-half averages are
hard-coded to the absent marker: they are `none` for EVERY input — hence
in particular when every game's first-half data is null they are `none`
and never `0` — but they are also `none` when non-null first-half data
is available (see the counterexample). -/
theorem avg1H_always_none (sport tid : String) (games : List Event) (n : Nat) :
    (summarizeTeamForm sport tid games n).avg1HScored = none ∧
    (summarizeTeamForm sport tid games n).avg1HAllowed = none := by
  constructor <;>
    · unfold summarizeTeamForm
      split <;> rfl

/-- Claim C4, counterexample: with one game whose first-half figure is
derivable (`38`), the mean over the non-null subset claimed by the spec
is `38`, but the aggregator still returns the absent marker. -/
theorem avg1H_ignores_available_data :
    (summarizeTeamForm "cbb" "3" [ev1H] 5).avg1HScored = none ∧
    avgFirstHalfScoredSpec "3" [ev1H] = some 38 ∧
    (none : Option ℚ) ≠ some 38 := by
  refine ⟨rfl, ?_, by simp⟩
  have h1 : List.filterMap (specFirstHalfScored "3") [ev1H] = [38] := by decide
  simp only [avgFirstHalfScoredSpec, h1]
  norm_num

/-- Claim C7 (confirmed): calling either scanner with `n = 0` makes zero
upstream calls (the fetched-days list is empty, whatever the fetch
oracle) and returns an empty sequence immediately; the summary built on
top has `nFound = 0`, an empty games list and `nRequested = 0`. -/
theorem n_zero_short_circuit (fetch : Int → Except FetchErr (List Event))
    (sport tid : String) (maxBackDays : Nat) (today : Int) :
    getLastNGamesForTeam fetch tid 0 maxBackDays today = .ok ([], []) ∧
    ∃ s, getFormSummary fetch sport tid 0 today = .ok (s, []) ∧
      s.nFound = 0 ∧ s.games = [] ∧ s.nRequested = 0 := by
  constructor
  · cases maxBackDays with
    | zero => rfl
    | succ k => simp [getLastNGamesForTeam, scanLoopRoutes]
  · unfold getFormSummary
    by_cases h : pyLower sport ∈ supportedSports
    · rw [if_pos h]
      exact ⟨_, rfl, rfl, rfl, rfl⟩
    · rw [if_neg h]
      exact ⟨_, rfl, rfl, rfl, rfl⟩

/-- Claim C9 (confirmed): every summary the service returns satisfies
`0 ≤ nFound ≤ nRequested`, and its games list has length exactly
`nFound`. -/
theorem summary_nFound_bounds (fetch : Int → Except FetchErr (List Event))
    (sport tid : String) (n : Nat) (today : Int)
    (s : GenericSummary) (ds : List Int)
    (h : getFormSummary fetch sport tid n today = .ok (s, ds)) :
    s.nFound ≤ s.nRequested ∧ s.games.length = s.nFound := by
  unfold getFormSummary at h
  by_cases hs : pyLower sport ∈ supportedSports
  · rw [if_pos hs] at h
    unfold scanBranch at h
    cases hg : getLastNGamesGeneric fetch (pyLower sport) tid n 60 today with
    | error e => rw [hg] at h; exact absurd h (by simp)
    | ok p =>
      rw [hg] at h
      obtain ⟨games, days⟩ := p
      simp only [Except.ok.injEq, Prod.mk.injEq] at h
      obtain ⟨hs1, hs2⟩ := h
      rw [← hs1]
      exact ⟨getLastNGamesGeneric_length_le fetch (pyLower sport) tid n 60 today
        (games, days) hg, rfl⟩
  · rw [if_neg hs] at h
    simp only [Except.ok.injEq, Prod.mk.injEq] at h
    obtain ⟨hs1, hs2⟩ := h
    rw [← hs1]
    exact ⟨Nat.zero_le n, rfl⟩

/-- Claim C9, witness: the bound instantiated on a concrete run. -/
theorem summary_nFound_bounds_witness :
    ({ sport := "xyz", teamId := "1", nRequested := 5, nFound := 0,
       games := [], note := some "unsupported sport" } : GenericSummary).nFound ≤
      ({ sport := "xyz", teamId := "1", nRequested := 5, nFound := 0,
         games := [], note := some "unsupported sport" } : GenericSummary).nRequested ∧
    ({ sport := "xyz", teamId := "1", nRequested := 5, nFound := 0,
       games := [], note := some "unsupported sport" } : GenericSummary).games.length
      = ({ sport := "xyz", teamId := "1", nRequested := 5, nFound := 0,
           games := [], note := some "unsupported sport" } : GenericSummary).nFound :=
  summary_nFound_bounds (fun _ => .ok []) "xyz" "1" 5 0
    { sport := "xyz", teamId := "1", nRequested := 5, nFound := 0,
      games := [], note := some "unsupported sport" } [] rfl

/-- Claim C10 (confirmed): the sport key is lowercased first; when the
lowercased key is not one of the four configured sports, the service
returns — without any upstream call — the well-formed summary with
`nFound = 0`, empty games, `nRequested = n` and note
`"unsupported sport"`; when the lowercased key IS configured (so
mixed-case variants of supported sports are accepted) it proceeds to the
scanning branch. -/
theorem unsupported_sport_note (fetch : Int → Except FetchErr (List Event))
    (sport tid : String) (n : Nat) (today : Int) :
    (pyLower sport ∉ supportedSports →
      getFormSummary fetch sport tid n today
        = .ok ({ sport := pyLower sport, teamId := tid, nRequested := n,
                 nFound := 0, games := [],
                 note := some "unsupported sport" }, [])) ∧
    (pyLower sport ∈ supportedSports →
      getFormSummary fetch sport tid n today
        = scanBranch fetch (pyLower sport) tid n today) := by
  constructor
  · intro h
    unfold getFormSummary
    rw [if_neg h]
  · intro h
    unfold getFormSummary
    rw [if_pos h]

/-- Claim C10, witness: an unsupported key `"Foo"` gets the note with
zero upstream calls, and the mixed-case `"NFL"` is accepted (reaches the
scanning branch). -/
theorem unsupported_sport_note_witness :
    getFormSummary (fun _ => .ok []) "Foo" "1" 3 0
      = .ok ({ sport := pyLower "Foo", teamId := "1", nRequested := 3,
               nFound := 0, games := [],
               note := some "unsupported sport" }, []) ∧
    getFormSummary (fun _ => .ok []) "NFL" "1" 3 0
      = scanBranch (fun _ => .ok []) (pyLower "NFL") "1" 3 0 :=
  ⟨(unsupported_sport_note (fun _ => .ok []) "Foo" "1" 3 0).1 (by decide),
   (unsupported_sport_note (fun _ => .ok []) "NFL" "1" 3 0).2 (by decide)⟩

/-- Claim C6, witness: a doubleheader day (two qualifying games plus one
game of another team) scanned with plenty of room appends BOTH
qualifying games of the day. -/
theorem collectDayRoutes_take_witness :
    (([] : List Event).length < 5) ∧
    collectDayRoutes "9" 5 [evDupA, evOther, evDupB] []
      = [] ++ (([evDupA, evOther, evDupB].filter
          (qualifiesRoutes "9")).take (5 - ([] : List Event).length)) :=
  ⟨by decide, collectDayRoutes_take "9" 5 [evDupA, evOther, evDupB] [] (by decide)⟩

/-- Claim C6, counterexample: a day holding TWO qualifying games scanned
with `n = 1`: the scan stops mid-day after the first append, so the
second qualifying game of that scanned day is never accumulated — the
day's games are NOT all appended before the stop-condition check. -/
theorem scan_day_truncated_mid_day :
    getLastNGamesForTeam dupDayFetch "9" 1 5 50 = .ok ([evDupA], [50]) ∧
    qualifiesRoutes "9" evDupB = true ∧
    evDupB ∉ [evDupA] := by decide

/-- Claim C1 (corrected): when every failing day fails with an HTTP
status error — the only kind the router scanner catches — each failed
day is treated identically to a zero-event day, the failure is never
surfaced, and the completed games found on the other scanned days are
still returned (the scan result equals the result over the
zero-event-recovered upstream, and is a success).  Any other transport
failure (timeout, connection error, malformed body) — and, in the
generic service scanner, ANY per-day fetch failure — propagates to the
caller as an error; see the counterexample. -/
theorem scan_statusError_recovered (fetch : Int → Except FetchErr (List Event))
    (tid : String) (n maxBackDays : Nat) (today : Int)
    (hf : ∀ d, fetch d ≠ .error .transportError) :
    getLastNGamesForTeam fetch tid n maxBackDays today
        = getLastNGamesForTeam (zeroEventRecovery fetch) tid n maxBackDays today ∧
    ∃ p, getLastNGamesForTeam fetch tid n maxBackDays today = .ok p := by
  have heq := scanLoopRoutes_recover fetch tid n today hf maxBackDays 0 [] []
  obtain ⟨p, hp⟩ := scanLoopRoutes_ok_of_fetch_ok (zeroEventRecovery fetch) tid n
    today (zeroEventRecovery_ok fetch) maxBackDays 0 [] []
  refine ⟨heq, p, ?_⟩
  show scanLoopRoutes fetch tid n today 0 maxBackDays [] [] = .ok p
  rw [heq]
  exact hp

/-- Claim C1, witness: an upstream failing with an HTTP status error on
3 of 10 scanned days behaves exactly like a zero-event upstream on those
days, does not raise, and the 7 games found on the other days are
returned. -/
theorem scan_statusError_recovered_witness :
    (∀ d, wFetch d ≠ .error .transportError) ∧
    (getLastNGamesForTeam wFetch "7" 9 10 9
        = getLastNGamesForTeam (zeroEventRecovery wFetch) "7" 9 10 9 ∧
      ∃ p, getLastNGamesForTeam wFetch "7" 9 10 9 = .ok p) ∧
    (getLastNGamesForTeam wFetch "7" 9 10 9).map (fun p => p.1.length) = .ok 7 := by
  have hf : ∀ d, wFetch d ≠ .error .transportError := by
    intro d
    unfold wFetch
    split <;> simp
  exact ⟨hf, scan_statusError_recovered wFetch "7" 9 10 9 hf, by decide⟩

/-- Claim C1, counterexample: a timeout-style transport failure on a
scanned day is NOT recovered — both scanners surface it to the caller as
an error instead of treating the day as zero events. -/
theorem scan_transport_error_raises :
    getLastNGamesGeneric failFirstFetch "cbb" "7" 5 60 0 = .error .transportError ∧
    getLastNGamesForTeam failFirstFetch "7" 5 90 0 = .error .transportError := by
  decide

/-- Claim C2 (corrected): both day walks always terminate, stopping as
soon as the accumulator reaches `n` or after `maxLookbackDays` fetched
days (router default 90, service default 60); there is NO
consecutive-zero-day cutoff in the code, so against an upstream
returning zero events for every day the walk fetches exactly
`maxLookbackDays` days, not the smaller of `maxLookbackDays` and a
15-day cutoff — see the counterexample. -/
theorem scan_day_budget :
    (∀ (fetch : Int → Except FetchErr (List Event)) (tid : String)
        (n maxBackDays : Nat) (today : Int) (p : List Event × List Int),
      getLastNGamesForTeam fetch tid n maxBackDays today = .ok p →
      p.2.length ≤ maxBackDays) ∧
    (∀ (fetch : Int → Except FetchErr (List Event)) (sport tid : String)
        (n maxDaysBack : Nat) (today : Int) (p : List TeamView × List Int),
      getLastNGamesGeneric fetch sport tid n maxDaysBack today = .ok p →
      p.2.length ≤ maxDaysBack) ∧
    (∀ (fetch : Int → Except FetchErr (List Event)) (tid : String)
        (n maxBackDays : Nat) (today : Int),
      (∀ d, fetch d = .ok []) → 0 < n →
      getLastNGamesForTeam fetch tid n maxBackDays today
        = .ok ([], (List.range maxBackDays).map fun (i : Nat) => today - (i : Int))) ∧
    (∀ (fetch : Int → Except FetchErr (List Event)) (sport tid : String)
        (n maxDaysBack : Nat) (today : Int),
      (∀ d, fetch d = .ok []) → 0 < n →
      getLastNGamesGeneric fetch sport tid n maxDaysBack today
        = .ok ([], (List.range maxDaysBack).map fun (i : Nat) => today - (i : Int))) := by
  refine ⟨?_, ?_, ?_, ?_⟩
  · intro fetch tid n maxBackDays today p h
    obtain ⟨k, hk, hds⟩ :=
      scanLoopRoutes_days fetch tid n today maxBackDays 0 [] [] p h
    have hlen : p.2.length = k := by rw [hds]; simp
    omega
  · intro fetch sport tid n maxDaysBack today p h
    obtain ⟨k, hk, hds⟩ :=
      getLastNGamesGeneric_days fetch sport tid n maxDaysBack today p h
    have hlen : p.2.length = k := by rw [hds]; simp
    omega
  · intro fetch tid n maxBackDays today hf hn
    have h := scanLoopRoutes_allEmpty fetch tid n today hf maxBackDays 0 [] []
      (by simpa using hn)
    simpa [getLastNGamesForTeam] using h
  · intro fetch sport tid n maxDaysBack today hf hn
    exact getLastNGamesGeneric_allEmpty fetch sport tid n maxDaysBack today hf hn

/-- Claim C2, witness: the day bounds instantiated on concrete all-empty
runs of both scanners. -/
theorem scan_day_budget_witness :
    ((([], [(0 : Int), -1, -2]) : List Event × List Int).2.length ≤ 3 ∧
     (([], [(0 : Int), -1]) : List TeamView × List Int).2.length ≤ 2) ∧
    (getLastNGamesForTeam (fun _ => .ok []) "1" 5 3 0
        = .ok ([], (List.range 3).map fun (i : Nat) => (0 : Int) - (i : Int)) ∧
     getLastNGamesGeneric (fun _ => .ok []) "cbb" "1" 5 2 0
        = .ok ([], (List.range 2).map fun (i : Nat) => (0 : Int) - (i : Int))) := by
  refine ⟨⟨?_, ?_⟩, ?_, ?_⟩
  · exact scan_day_budget.1 (fun _ => .ok []) "1" 5 3 0 ([], [0, -1, -2]) (by decide)
  · exact scan_day_budget.2.1 (fun _ => .ok []) "cbb" "1" 5 2 0 ([], [0, -1]) (by decide)
  · exact scan_day_budget.2.2.1 (fun _ => .ok []) "1" 5 3 0 (fun _ => rfl) (by decide)
  · exact scan_day_budget.2.2.2 (fun _ => .ok []) "cbb" "1" 5 2 0 (fun _ => rfl) (by decide)

/-- Claim C2, counterexample: against a zero-event-every-day upstream,
the router scan with its default 90-day window fetches all 90 days — it
does not stop within the claimed smaller bound `min 90 15` of the
15-day consecutive-zero heuristic, because no such cutoff exists. -/
theorem scan_allEmpty_exceeds_zero_cutoff :
    okDaysLength (getLastNGamesForTeam (fun _ => .ok []) "1" 5 90 0) = 90 ∧
    ¬ (90 ≤ min 90 15) := by decide

/-- Claim C5 (corrected): both day walks step backward one calendar day
at a time, but they start at TODAY (`delta = 0`), not at yesterday: the
fetched days of any finished scan are exactly `today, today - 1, …`; in
particular the current day IS scanned and a completed game played today
is returned (see the counterexample). -/
theorem scan_days_start_today :
    (∀ (fetch : Int → Except FetchErr (List Event)) (tid : String)
        (n maxBackDays : Nat) (today : Int) (p : List Event × List Int),
      getLastNGamesForTeam fetch tid n maxBackDays today = .ok p →
      p.2 = (List.range p.2.length).map fun (i : Nat) => today - (i : Int)) ∧
    (∀ (fetch : Int → Except FetchErr (List Event)) (sport tid : String)
        (n maxDaysBack : Nat) (today : Int) (p : List TeamView × List Int),
      getLastNGamesGeneric fetch sport tid n maxDaysBack today = .ok p →
      p.2 = (List.range p.2.length).map fun (i : Nat) => today - (i : Int)) := by
  constructor
  · intro fetch tid n maxBackDays today p h
    obtain ⟨k, hk, hds⟩ :=
      scanLoopRoutes_days fetch tid n today maxBackDays 0 [] [] p h
    have hds2 : p.2 = (List.range k).map fun (i : Nat) => today - (i : Int) := by
      simpa using hds
    rw [hds2]
    simp
  · intro fetch sport tid n maxDaysBack today p h
    obtain ⟨k, hk, hds⟩ :=
      getLastNGamesGeneric_days fetch sport tid n maxDaysBack today p h
    rw [hds]
    simp

/-- Claim C5, witness: concrete finished scans of both scanners, whose
fetched days start at `today` and step back one day at a time. -/
theorem scan_days_start_today_witness :
    ([(5 : Int), 4, 3] = (List.range 3).map fun (i : Nat) => (5 : Int) - (i : Int)) ∧
    ([(7 : Int), 6] = (List.range 2).map fun (i : Nat) => (7 : Int) - (i : Int)) := by
  constructor
  · exact scan_days_start_today.1 (fun _ => .ok []) "1" 9 3 5 ([], [5, 4, 3])
      (by decide)
  · exact scan_days_start_today.2 (fun _ => .ok []) "cbb" "1" 9 2 7 ([], [7, 6])
      (by decide)

/-- Claim C5, counterexample: with `today = 100`, the very first fetched
day of the scan is day `100` — today itself — and the completed game
played today is returned: the current day is scanned, the walk does not
start at yesterday. -/
theorem scan_includes_today :
    getLastNGamesForTeam todayOnlyFetch "5" 1 5 100
      = .ok ([todayEvent], [100]) ∧
    getLastNGamesGeneric todayOnlyFetch "cbb" "5" 1 60 100
      = .ok ([todayView], [100]) := by decide

/-- Claim C3 (corrected): the normalizer applies the SAME first-entry
period rule to every sport — each side's first-half figure is the parsed
value at period index 0 of that side's linescores, and `none` (never an
error) when the period entries are absent; there is no per-sport rule,
and football quarters at indices 0 and 1 are NOT summed (see the
counterexample). -/
theorem firstHalf_period_zero_rule :
    (∀ (s₁ s₂ tid : String) (ev : Event),
      (extractTeamView s₁ tid ev).map (fun v => (v.firstHalf, v.oppFirstHalf))
        = (extractTeamView s₂ tid ev).map (fun v => (v.firstHalf, v.oppFirstHalf))) ∧
    (∀ (s tid : String) (ev : Event) (v : TeamView),
      extractTeamView s tid ev = some v →
      ∃ comp rest tc, ev.competitions = comp :: rest ∧
        matchedTeamComp tid comp.competitors = some tc ∧
        v.firstHalf = (getScores tc).2 ∧
        (tc.linescores = [] → v.firstHalf = none)) := by
  constructor
  · intro s₁ s₂ tid ev
    unfold extractTeamView
    cases hc : ev.competitions with
    | nil => rfl
    | cons comp rest =>
      dsimp only
      by_cases h1 : comp.statusType.state ≠ some "post"
      · rw [if_pos h1, if_pos h1]
      · rw [if_neg h1, if_neg h1]
        by_cases h2 : comp.competitors.length < 2
        · rw [if_pos h2, if_pos h2]
        · rw [if_neg h2, if_neg h2]
          cases hm : matchedTeamComp tid comp.competitors with
          | none => cases ho : firstOppComp tid comp.competitors <;> rfl
          | some tc => cases ho : firstOppComp tid comp.competitors <;> rfl
  · intro s tid ev v h
    unfold extractTeamView at h
    cases hc : ev.competitions with
    | nil => rw [hc] at h; exact absurd h (by simp)
    | cons comp rest =>
      rw [hc] at h
      dsimp only at h
      by_cases h1 : comp.statusType.state ≠ some "post"
      · rw [if_pos h1] at h; exact absurd h (by simp)
      · rw [if_neg h1] at h
        by_cases h2 : comp.competitors.length < 2
        · rw [if_pos h2] at h; exact absurd h (by simp)
        · rw [if_neg h2] at h
          cases hm : matchedTeamComp tid comp.competitors with
          | none =>
            rw [hm] at h
            cases ho : firstOppComp tid comp.competitors <;> rw [ho] at h <;>
              exact absurd h (by simp)
          | some tc =>
            rw [hm] at h
            cases ho : firstOppComp tid comp.competitors with
            | none => rw [ho] at h; exact absurd h (by simp)
            | some oc =>
              rw [ho] at h
              simp only [Option.some.injEq] at h
              refine ⟨comp, rest, tc, rfl, hm, ?_, ?_⟩
              · rw [← h]
              · intro hlin
                rw [← h]
                simp [getScores, hlin]

/-- Claim C3, witness: the sport-irrelevance and the index-0 rule
instantiated on a concrete football event (team linescores `7, 10`). -/
theorem firstHalf_period_zero_rule_witness :
    ((extractTeamView "nfl" "12" evQuarters).map
        (fun v => (v.firstHalf, v.oppFirstHalf))
      = (extractTeamView "cbb" "12" evQuarters).map
        (fun v => (v.firstHalf, v.oppFirstHalf))) ∧
    ∃ comp rest tc, evQuarters.competitions = comp :: rest ∧
      matchedTeamComp "12" comp.competitors = some tc ∧
      vQuarters.firstHalf = (getScores tc).2 ∧
      (tc.linescores = [] → vQuarters.firstHalf = none) :=
  ⟨firstHalf_period_zero_rule.1 "nfl" "cbb" "12" evQuarters,
   firstHalf_period_zero_rule.2 "nfl" "12" evQuarters vQuarters (by decide)⟩

/-- Claim C3, counterexample: for a football (`"nfl"`) event with
quarter linescores `7, 10`, the claimed first-half score is the sum of
period indices 0 and 1 (`17`), but the normalizer produces the index-0
value alone (`7`). -/
theorem football_firstHalf_not_quarter_sum :
    (extractTeamView "nfl" "12" evQuarters).map (fun v => v.firstHalf)
      = some (some 7) ∧
    some (7 : Int) ≠ some (7 + 10) := by decide

/-- Claim C8 (corrected): the aggregator is a total pure function, but a
missing or unparseable score is NOT excluded from the average: it is
coerced to `0` while the denominator stays the full game count, so the
full-game averages are the zero-coerced means over ALL games — which
biases them downward when data is missing (see the counterexample). -/
theorem avgFull_coerced_mean (sport tid : String) (games : List Event)
    (n : Nat) (h : games ≠ []) :
    (summarizeTeamForm sport tid games n).avgFullScored
        = some ((games.map (coercedScored tid)).sum / (games.length : ℚ)) ∧
    (summarizeTeamForm sport tid games n).avgFullAllowed
        = some ((games.map (coercedAllowed tid)).sum / (games.length : ℚ)) := by
  have hlen : ¬ games.length = 0 := by
    simpa using h
  constructor
  · show (if games.length = 0 then _ else _ : FormSummary).avgFullScored = _
    rw [if_neg hlen]
    show some ((games.foldl (summarizeStep tid) (0, 0, none)).1 / (games.length : ℚ)) = _
    rw [foldl_summarizeStep_fst tid games 0 0 none, zero_add]
  · show (if games.length = 0 then _ else _ : FormSummary).avgFullAllowed = _
    rw [if_neg hlen]
    show some ((games.foldl (summarizeStep tid) (0, 0, none)).2.1 / (games.length : ℚ)) = _
    rw [foldl_summarizeStep_snd tid games 0 0 none, zero_add]

/-- Claim C8, witness: the zero-coerced means instantiated on a concrete
pair of games (one parseable score, one unparseable). -/
theorem avgFull_coerced_mean_witness :
    (summarizeTeamForm "cbb" "4" [evScoreA, evScoreB] 5).avgFullScored
        = some (([evScoreA, evScoreB].map (coercedScored "4")).sum
            / (([evScoreA, evScoreB] : List Event).length : ℚ)) ∧
    (summarizeTeamForm "cbb" "4" [evScoreA, evScoreB] 5).avgFullAllowed
        = some (([evScoreA, evScoreB].map (coercedAllowed "4")).sum
            / (([evScoreA, evScoreB] : List Event).length : ℚ)) :=
  avgFull_coerced_mean "cbb" "4" [evScoreA, evScoreB] 5 (by decide)

/-- Claim C8, counterexample: with one parseable score (`80`) and one
unparseable one, excluding the bad value would give a mean of `80`, but
the aggregator treats it as `0` and still divides by both games,
producing `40` — the missing data biases the average downward. -/
theorem avgFull_includes_unparseable_as_zero :
    (summarizeTeamForm "cbb" "4" [evScoreA, evScoreB] 5).avgFullScored = some 40 ∧
    avgFullScoredExcludingSpec "4" [evScoreA, evScoreB] = some 80 ∧
    (40 : ℚ) < 80 := by
  refine ⟨?_, ?_, by norm_num⟩
  · have hmap : [evScoreA, evScoreB].map (coercedScored "4") = [(80 : ℚ), 0] := by
      decide
    have hfold := foldl_summarizeStep_fst "4" [evScoreA, evScoreB] 0 0 none
    show some (([evScoreA, evScoreB].foldl (summarizeStep "4") (0, 0, none)).1
        / (((2 : Nat) : ℚ))) = some 40
    rw [hfold, hmap]
    norm_num
  · have h2 : [evScoreA, evScoreB].filterMap (fun ev =>
        (findTeamAndOpp ev "4").1.bind fun ours => parseScoreStrict ours.score)
        = [(80 : ℚ)] := by decide
    simp only [avgFullScoredExcludingSpec, h2]
    norm_num

end SportsModel
